import Mathlib

set_option maxRecDepth 8000

/-!
Verification development for the TeraBox share-link extractor.

The JavaScript source is shallowly embedded as executable Lean functions.
Strings are Lean `String`s; JavaScript regular-expression searches are
modelled by explicit left-to-right scanners over the character list;
`JSON.parse` is modelled by `jsonParse` over a `Json` value type, covering
the object/array/string/integer/boolean/null subset that the embedded page
data uses; `Math.random()`-derived integers are injected as explicit `Nat`
parameters; a thrown (rejected) fetch is modelled as `Except.error` with
the error message.
-/

/-- Boolean test that `p` is an initial segment of `l` (character lists). -/
def listLeads (p : List Char) (l : List Char) : Bool :=
  match p, l with
  | [], _ => true
  | _ :: _, [] => false
  | a :: ps, c :: cs => a == c && listLeads ps cs

/-- Boolean test that `pat` occurs somewhere inside `l`.
Models the JavaScript `String.prototype.includes` on the decoded characters. -/
def listSub (pat : List Char) : List Char → Bool
  | [] => listLeads pat []
  | c :: cs => listLeads pat (c :: cs) || listSub pat cs

/-- String-level substring test: models `hay.includes(pat)` in JavaScript. -/
def strHasSub (hay pat : String) : Bool :=
  listSub pat.data hay.data

/-- String-level initial-segment test: `s` begins with `pat`. -/
def strLeads (s pat : String) : Bool :=
  listLeads pat.data s.data

/-- Remove the first occurrence of `pat` from the character list; identity when absent. -/
def removeFirstAux (pat : List Char) : List Char → List Char
  | [] => []
  | c :: cs =>
    if listLeads pat (c :: cs) then (c :: cs).drop pat.length
    else c :: removeFirstAux pat cs

/-- Models `s.replace(pat, '')` for a plain string pattern in JavaScript:
removes the first occurrence of `pat` anywhere in `s` (not only a leading one). -/
def removeFirst (s pat : String) : String :=
  String.mk (removeFirstAux pat.data s.data)

/-- JSON value type for the data embedded in the fetched page.
Numbers are modelled as integers; the page data this program reads uses
integer sizes, identifiers and category codes. -/
inductive Json where
  | null
  | bool (b : Bool)
  | num (n : Int)
  | str (s : String)
  | arr (elems : List Json)
  | obj (fields : List (String × Json))

/-- Skip JSON whitespace. -/
def skipWs : List Char → List Char
  | [] => []
  | c :: cs => if c == ' ' || c == '\t' || c == '\n' || c == '\r' then skipWs cs else c :: cs

/-- Lex a JSON string body after the opening quote (escape-free subset);
returns the contents and the remaining characters after the closing quote. -/
def lexStr : List Char → Option (String × List Char)
  | [] => none
  | c :: cs =>
    if c == '"' then some ("", cs)
    else if c == '\\' then none
    else match lexStr cs with
      | some (s, r) => some (String.mk (c :: s.data), r)
      | none => none

/-- Greedy run of decimal digits. -/
def takeDigits : List Char → List Char
  | [] => []
  | c :: cs => if c.isDigit then c :: takeDigits cs else []

/-- Digits to a natural number. -/
def digitsToNat (ds : List Char) : Nat :=
  ds.foldl (fun n c => n * 10 + (c.toNat - '0'.toNat)) 0

/-- Intermediate result of the JSON parser: a value, a list of array
elements, or a list of object fields. -/
inductive JOut where
  | v (j : Json)
  | vs (js : List Json)
  | kvs (fs : List (String × Json))

/-- Fuel-indexed recursive-descent JSON parser.
Mode 0 parses one value, mode 1 the elements after `[`, mode 2 the fields
after `{`.  Together with `jsonParse` this models `JSON.parse` on the
integer-number, escape-free-string subset used by the embedded page data. -/
def jp : Nat → Nat → List Char → Option (JOut × List Char)
  | 0, _, _ => none
  | f + 1, 0, cs =>
    match skipWs cs with
    | 'n' :: 'u' :: 'l' :: 'l' :: rest => some (.v .null, rest)
    | 't' :: 'r' :: 'u' :: 'e' :: rest => some (.v (.bool true), rest)
    | 'f' :: 'a' :: 'l' :: 's' :: 'e' :: rest => some (.v (.bool false), rest)
    | '"' :: rest =>
      match lexStr rest with
      | some (s, r) => some (.v (.str s), r)
      | none => none
    | '[' :: rest =>
      (match skipWs rest with
       | ']' :: r2 => some (.v (.arr []), r2)
       | _ =>
         match jp f 1 rest with
         | some (.vs xs, r2) => some (.v (.arr xs), r2)
         | _ => none)
    | '{' :: rest =>
      (match skipWs rest with
       | '}' :: r2 => some (.v (.obj []), r2)
       | _ =>
         match jp f 2 rest with
         | some (.kvs fs, r2) => some (.v (.obj fs), r2)
         | _ => none)
    | '-' :: rest =>
      (match takeDigits rest with
       | [] => none
       | ds =>
         let r2 := rest.drop ds.length
         match r2 with
         | '.' :: _ => none
         | 'e' :: _ => none
         | 'E' :: _ => none
         | _ => some (.v (.num (-(digitsToNat ds : Int))), r2))
    | c :: rest =>
      if c.isDigit then
        let ds := c :: takeDigits rest
        let r2 := rest.drop (takeDigits rest).length
        match r2 with
        | '.' :: _ => none
        | 'e' :: _ => none
        | 'E' :: _ => none
        | _ => some (.v (.num (digitsToNat ds : Int)), r2)
      else none
    | [] => none
  | f + 1, 1, cs =>
    (match jp f 0 cs with
     | some (.v x, r) =>
       (match skipWs r with
        | ',' :: r2 =>
          (match jp f 1 r2 with
           | some (.vs xs, r3) => some (.vs (x :: xs), r3)
           | _ => none)
        | ']' :: r2 => some (.vs [x], r2)
        | _ => none)
     | _ => none)
  | f + 1, _, cs =>
    (match skipWs cs with
     | '"' :: rest =>
       (match lexStr rest with
        | some (k, r) =>
          (match skipWs r with
           | ':' :: r2 =>
             (match jp f 0 r2 with
              | some (.v x, r3) =>
                (match skipWs r3 with
                 | ',' :: r4 =>
                   (match jp f 2 r4 with
                    | some (.kvs fs, r5) => some (.kvs ((k, x) :: fs), r5)
                    | _ => none)
                 | '}' :: r4 => some (.kvs [(k, x)], r4)
                 | _ => none)
              | _ => none)
           | _ => none)
        | none => none)
     | _ => none)

/-- Models `JSON.parse`: parse one value and require only whitespace after it. -/
def jsonParse (s : String) : Option Json :=
  match jp (2 * s.length + 2) 0 s.data with
  | some (.v j, r) => if skipWs r = [] then some j else none
  | _ => none

/-- JavaScript truthiness of a JSON value. -/
def Json.truthy : Json → Bool
  | .null => false
  | .bool b => b
  | .num n => n != 0
  | .str s => s ≠ ""
  | .arr _ => true
  | .obj _ => true

/-- Property lookup in an object field list; with duplicate keys the last
binding wins, as for objects produced by `JSON.parse`. -/
def jsLookup (fs : List (String × Json)) (k : String) : Option Json :=
  fs.foldl (fun acc p => if p.1 == k then some p.2 else acc) none

/-- Property access `v[k]` on a JSON value that is not `null`:
`none` models the JavaScript value `undefined`. -/
def jsGetOpt : Json → String → Option Json
  | .obj fs, k => jsLookup fs k
  | _, _ => none

/-- Models `x || d` in JavaScript: the default replaces an absent
(`undefined`) or falsy value. -/
def jsOrDefault (v : Option Json) (d : Json) : Json :=
  match v with
  | some j => if j.truthy then j else d
  | none => d

mutual
/-- JavaScript string conversion of a JSON value, as performed by template
literal interpolation. -/
def jsToString : Json → String
  | .null => "null"
  | .bool true => "true"
  | .bool false => "false"
  | .num n => toString n
  | .str s => s
  | .arr xs => String.intercalate "," (jsToStringList xs)
  | .obj _ => "[object Object]"

/-- Stringify each element of a JSON array. -/
def jsToStringList : List Json → List String
  | [] => []
  | x :: xs => jsToString x :: jsToStringList xs
end

/-- Interpolation of the property `v[k]` into a template literal:
an absent property renders as the string `undefined`. -/
def jsFieldStr (v : Json) (k : String) : String :=
  match jsGetOpt v k with
  | some j => jsToString j
  | none => "undefined"

/-- Models the JavaScript test `x.length === 0`: true for an empty array or
empty string, false otherwise (`undefined === 0` is false). -/
def jsLenEq0 : Json → Bool
  | .arr xs => xs.isEmpty
  | .str s => s == ""
  | _ => false

/-- Models `x[0]` on a JSON value: head of an array, first character of a
string, `undefined` (`none`) otherwise. -/
def jsIndex0 : Json → Option Json
  | .arr (x :: _) => some x
  | .arr [] => none
  | .str s =>
    match s.data with
    | [] => none
    | c :: _ => some (.str (String.mk [c]))
  | _ => none

/-- Models `fileInfo.category === n` for a numeric literal `n`. -/
def catEq (fileInfo : Json) (n : Int) : Bool :=
  match jsGetOpt fileInfo "category" with
  | some (.num m) => m == n
  | _ => false

/-- Numeric value of the `size` field after the `|| 0` default.  The page
data this program reads carries nonnegative integer byte counts; other
value shapes are modelled as 0. -/
def jsSizeNat : Json → Nat
  | .num n => n.toNat
  | _ => 0

/-- Random integers drawn by one extraction call, in source order:
`createDirectLink` draws the two `fid` components, the `dp-logid` and the
`r` parameter; `generateThumbnailUrls` draws the two `fid` components and
the `dp-logid` of its shared query fragment.  Each models one
`Math.floor(Math.random() * N)` call site. -/
structure RandomDraws where
  dlFid1 : Nat
  dlFid2 : Nat
  dlLogid : Nat
  dlR : Nat
  thFid1 : Nat
  thFid2 : Nat
  thLogid : Nat

/-- True when the character terminates the host part of a URL authority. -/
def hostEnd (c : Char) : Bool :=
  c == '/' || c == ':' || c == '?' || c == '#'

/-- Characters of the host, up to the first delimiter. -/
def takeHost : List Char → List Char
  | [] => []
  | c :: cs => if hostEnd c then [] else c :: takeHost cs

/-- Lower-case every character of a string. -/
def lowerStr (s : String) : String :=
  String.mk (s.data.map Char.toLower)

/-- Strip an explicit http or https scheme, returning the remainder. -/
def dropScheme (s : String) : Option (List Char) :=
  if listLeads "https://".data s.data then some (s.data.drop 8)
  else if listLeads "http://".data s.data then some (s.data.drop 7)
  else none

/-- Models the hostname produced by the `new URL` constructor, restricted to
the http and https URLs this program receives: the authority extends to the
first `/`, `:`, `?` or `#` after the scheme, must be nonempty, and is
lower-cased; any other string fails to parse. -/
def parseHostname (s : String) : Option String :=
  match dropScheme s with
  | none => none
  | some rest =>
    match takeHost rest with
    | [] => none
    | h => some (lowerStr (String.mk h))

/-- The fixed allow-list of TeraBox host substrings (`validDomains` in the source). -/
def validDomains : List String :=
  ["terabox.com", "1024tera.com", "teraboxapp.com", "4funbox.com", "1024terabox.com"]

/-- Embedding of `normalizeTeraBoxUrl`: reject an empty input, parse the URL,
remove the first occurrence of `www.` from the hostname, and require some
allow-listed substring; accepted URLs are returned unchanged (the `/s/`
branch of the source returns the input as-is, like the fall-through). -/
def normalizeTeraBoxUrl (url : String) : Option String :=
  if url = "" then none
  else
    match parseHostname url with
    | none => none
    | some hostname =>
      let domain := removeFirst hostname "www."
      if validDomains.any (fun d => strHasSub domain d) then
        if strHasSub url "/s/" then some url else some url
      else none

/-- Strip a leading `www.` prefix only, leaving other occurrences alone. -/
def stripLeadingWww (h : String) : String :=
  if listLeads "www.".data h.data then String.mk (h.data.drop 4) else h

/-- Modelled from the spec: the URL Normalizer as the spec words it, with the
host compared against the allow-list after stripping a LEADING `www.` prefix
(the implementation instead removes the first occurrence anywhere).  Kept for
comparison with `normalizeTeraBoxUrl`. -/
def normalizeTeraBoxUrlSpec (url : String) : Option String :=
  if url = "" then none
  else
    match parseHostname url with
    | none => none
    | some hostname =>
      if validDomains.any (fun d => strHasSub (stripLeadingWww hostname) d) then some url
      else none

/-- Accepted characters of a `/s/<token>` share segment: the character class
of the source regular expression. -/
def tokenChar (c : Char) : Bool :=
  c.isAlpha || c.isDigit || c == '_' || c == '-'

/-- Greedy run of characters satisfying `p`. -/
def takeWhileB (p : Char → Bool) : List Char → List Char
  | [] => []
  | c :: cs => if p c then c :: takeWhileB p cs else []

/-- Leftmost match of the pattern `pat` followed by one-or-more characters
satisfying `p`; returns the greedy capture.  Models an unanchored JavaScript
regular-expression search such as `/\/s\/([A-Za-z0-9_-]+)/` or
`/\"fs_id\":(\d+)/`. -/
def scanTokenAfter (pat : List Char) (p : Char → Bool) : List Char → Option String
  | [] => none
  | c :: cs =>
    if listLeads pat (c :: cs) then
      match takeWhileB p ((c :: cs).drop pat.length) with
      | [] => scanTokenAfter pat p cs
      | t => some (String.mk t)
    else scanTokenAfter pat p cs

/-- First `/s/<token>` segment of the URL. -/
def urlShareToken (url : String) : Option String :=
  scanTokenAfter "/s/".data tokenChar url.data

/-- First `"fs_id":<digits>` occurrence in the page text. -/
def pageFsId (page : String) : Option String :=
  scanTokenAfter "\"fs_id\":".data Char.isDigit page.data

/-- First `"shareid":<digits>` occurrence in the page text. -/
def pageShareId (page : String) : Option String :=
  scanTokenAfter "\"shareid\":".data Char.isDigit page.data

/-- Embedding of `extractFileId`: URL share segment first (guarded by the
`url.includes('/s/')` test of the source), then `fs_id`, then `shareid`. -/
def extractFileId (url pageContent : String) : Option String :=
  match (if strHasSub url "/s/" then urlShareToken url else none) with
  | some t => some t
  | none =>
    match pageFsId pageContent with
    | some d => some d
    | none => pageShareId pageContent

/-- Lazy capture of the source regular expression: the characters up to the
first `;`, failing when a line break (which `.` does not match) comes first. -/
def captureToSemi : List Char → Option (List Char)
  | [] => none
  | c :: cs =>
    if c == ';' then some []
    else if c == '\n' || c == '\r' then none
    else
      match captureToSemi cs with
      | some t => some (c :: t)
      | none => none

/-- Leftmost position where the literal pattern is followed by a capture up
to a `;`; on a failed capture the search resumes one character later, as a
JavaScript regular-expression engine does. -/
def yunScan (pat : List Char) : List Char → Option (List Char)
  | [] => none
  | c :: cs =>
    if listLeads pat (c :: cs) then
      match captureToSemi ((c :: cs).drop pat.length) with
      | some cap => some cap
      | none => yunScan pat cs
    else yunScan pat cs

/-- The capture group of `window\.yunData = (.*?);` over the page text. -/
def yunDataCapture (page : String) : Option String :=
  (yunScan "window.yunData = ".data page.data).map String.mk

/-- The unit list of `formatSize`. -/
def sizesList : List String :=
  ["Bytes", "KB", "MB", "GB", "TB"]

/-- Models `parseFloat((bytes / Math.pow(1024, i)).toFixed(2))` scaled to
hundredths: the quotient rounded half-up to two decimal places. -/
def fixed2 (bytes p : Nat) : Nat :=
  (bytes * 200 + p) / (2 * p)

/-- Render a hundredths-scaled value the way `parseFloat` prints it:
trailing zeros of the fraction dropped, integer results without a point. -/
def renderHundredths (v : Nat) : String :=
  let ip := v / 100
  let fr := v % 100
  if fr = 0 then toString ip
  else if fr % 10 = 0 then toString ip ++ "." ++ toString (fr / 10)
  else if fr < 10 then toString ip ++ ".0" ++ toString fr
  else toString ip ++ "." ++ toString fr

/-- Embedding of `formatSize`.  The index `Math.floor(Math.log(bytes) /
Math.log(1024))` is modelled by the exact integer logarithm `Nat.log`;
`sizes[i]` for an index past the end of the list is the JavaScript value
`undefined`, which the string concatenation renders as `"undefined"`. -/
def formatSize (bytes : Nat) : String :=
  if bytes = 0 then "0 Bytes"
  else
    renderHundredths (fixed2 bytes (1024 ^ Nat.log 1024 bytes)) ++ " " ++
      sizesList.getD (Nat.log 1024 bytes) "undefined"

/-- Embedding of `createDirectLink`.  The four `Nat` arguments inject the
four `Math.floor(Math.random() * N)` call sites in source order; `server`
is accepted and unused exactly as in the source. -/
def createDirectLink (fileInfo server sign timestamp : Json)
    (ra rb rc rd : Nat) : String :=
  "https://d.1024tera.com/file/" ++ jsFieldStr fileInfo "fs_id" ++ "?fid=" ++
    jsFieldStr fileInfo "fs_id" ++ "-" ++ toString ra ++ "-" ++ toString rb ++
    "&dstime=" ++ jsToString timestamp ++ "&rt=sh&sign=" ++ jsToString sign ++
    "&expires=8h&chkv=0&chkbd=0&chkpc=&dp-logid=" ++ toString rc ++
    "&dp-callid=0&r=" ++ toString rd ++ "&sh=1&region=jp"

/-- The thumbnail map: one URL per size preset, with the preset labels the
source object literal uses as keys. -/
structure Thumbs where
  t140x90 : String
  t360x270 : String
  t60x60 : String
  t850x580 : String
deriving DecidableEq

/-- Key-value view of the thumbnail map, in source order. -/
def Thumbs.entries (t : Thumbs) : List (String × String) :=
  [("140x90", t.t140x90), ("360x270", t.t360x270), ("60x60", t.t60x60), ("850x580", t.t850x580)]

/-- Embedding of `generateThumbnailUrls`.  The three `Nat` arguments inject
the three `Math.floor(Math.random() * N)` call sites of the shared query
fragment; `none` models the JavaScript `null` result for other categories. -/
def generateThumbnailUrls (fileInfo server sign timestamp : Json)
    (ta tb tc : Nat) : Option Thumbs :=
  let isVideo := catEq fileInfo 1
  let isImage := catEq fileInfo 3
  if !isVideo && !isImage then none
  else
    let baseThumbUrl := "https://data.1024tera.com/thumbnail/" ++ jsFieldStr fileInfo "fs_id"
    let randomParams := "?fid=" ++ jsFieldStr fileInfo "fs_id" ++ "-" ++ toString ta ++
      "-" ++ toString tb ++ "&time=" ++ jsToString timestamp ++ "&rt=sh&sign=" ++
      jsToString sign ++ "&expires=8h&chkv=0&chkbd=0&chkpc=&dp-logid=" ++
      toString tc ++ "&dp-callid=0"
    let ft := if isVideo then "video" else "image"
    some {
      t140x90 := baseThumbUrl ++ randomParams ++ "&size=c140_u90&quality=100&vuk=-&ft=" ++ ft,
      t360x270 := baseThumbUrl ++ randomParams ++ "&size=c360_u270&quality=100&vuk=-&ft=" ++ ft,
      t60x60 := baseThumbUrl ++ randomParams ++ "&size=c60_u60&quality=100&vuk=-&ft=" ++ ft,
      t850x580 := baseThumbUrl ++ randomParams ++ "&size=c850_u580&quality=100&vuk=-&ft=" ++ ft }

/-- Embedding of `generateShortLink`: a deterministic string template with
no network call (the source function is async only in signature). -/
def generateShortLink (originalUrl fileId : String) : String :=
  "https://1024terabox.com/s/" ++ fileId

/-- Result of `extractFileInfoFromPage` on success. -/
structure FileInfoOut where
  title : String
  size : String
  directLink : String
  thumbnails : Option Thumbs
deriving DecidableEq

/-- Title after the `fileInfo.server_filename || 'Unknown'` default,
rendered as a string. -/
def jsTitle (v : Option Json) : String :=
  match v with
  | some j => if j.truthy then jsToString j else "Unknown"
  | none => "Unknown"

/-- Embedding of `extractFileInfoFromPage`.  Every failure of the source –
missing `window.yunData` assignment, empty capture, a throwing `JSON.parse`,
a property access on `null` or `undefined` (which throws and is caught), or
an empty `file_list` – produces `none`. -/
def extractFileInfoFromPage (pageContent : String) (rs : RandomDraws) : Option FileInfoOut :=
  match yunDataCapture pageContent with
  | none => none
  | some cap =>
    if cap = "" then none
    else
      match jsonParse cap with
      | none => none
      | some Json.null => none
      | some yunData =>
        let fileList := jsOrDefault (jsGetOpt yunData "file_list") (Json.arr [])
        if jsLenEq0 fileList then none
        else
          match jsIndex0 fileList with
          | none => none
          | some Json.null => none
          | some fileInfo =>
            let server := jsOrDefault (jsGetOpt yunData "server") (Json.str "")
            let sign := jsOrDefault (jsGetOpt yunData "sign") (Json.str "")
            let timestamp := jsOrDefault (jsGetOpt yunData "timestamp") (Json.str "")
            some {
              title := jsTitle (jsGetOpt fileInfo "server_filename"),
              size := formatSize (jsSizeNat (jsOrDefault (jsGetOpt fileInfo "size") (Json.num 0))),
              directLink := createDirectLink fileInfo server sign timestamp
                rs.dlFid1 rs.dlFid2 rs.dlLogid rs.dlR,
              thumbnails := generateThumbnailUrls fileInfo server sign timestamp
                rs.thFid1 rs.thFid2 rs.thLogid }

/-- One record of the `📋 Extracted Info` array of the response; `none` in
`thumbnails` is the `|| {}` empty-map default. -/
structure InfoRecord where
  title : String
  size : String
  directLink : String
  thumbnails : Option Thumbs
deriving DecidableEq

/-- The JSON response object: `status`, the optional `📋 Extracted Info`
array, and the optional `🔗 ShortLink`; failure responses carry only the
status field, so both options are `none` there. -/
structure TBResponse where
  status : String
  extractedInfo : Option (List InfoRecord)
  shortLink : Option String
deriving DecidableEq

/-- Embedding of `formatResponse`. -/
def formatResponse (fileInfo : FileInfoOut) (shortLink : String) : TBResponse :=
  { status := "✅ Success",
    extractedInfo := some [{
      title := fileInfo.title,
      size := fileInfo.size,
      directLink := fileInfo.directLink,
      thumbnails := fileInfo.thumbnails }],
    shortLink := some shortLink }

/-- Embedding of `extractTeraBoxInfo`.  `fetched` is the outcome of the
`axios.get` call on the normalized URL: `Except.ok` carries the page text,
`Except.error` the message of the thrown network or timeout error, which
the top-level catch turns into an error response (with the
`'Failed to extract information'` fallback for a falsy message). -/
def extractTeraBoxInfo (url : String) (fetched : Except String String)
    (rs : RandomDraws) : TBResponse :=
  match normalizeTeraBoxUrl url with
  | none => { status := "❌ Error: Invalid TeraBox URL", extractedInfo := none, shortLink := none }
  | some normalizedUrl =>
    match fetched with
    | Except.error msg =>
      { status := "❌ Error: " ++ (if msg = "" then "Failed to extract information" else msg),
        extractedInfo := none, shortLink := none }
    | Except.ok pageText =>
      match extractFileId normalizedUrl pageText with
      | none => { status := "❌ Error: Could not extract file ID", extractedInfo := none, shortLink := none }
      | some fileId =>
        match extractFileInfoFromPage pageText rs with
        | none => { status := "❌ Error: Could not extract file info", extractedInfo := none, shortLink := none }
        | some fileInfo => formatResponse fileInfo (generateShortLink normalizedUrl fileId)

/-- Embedding of the API route handler of `pages/api/extract`.  `urlParam`
is the `url` query parameter (`none` when absent); `outcome` is the result
of awaiting `extractTeraBoxInfo`, with `Except.error` modelling a rejected
promise caught by the top-level try/catch.  The pair is the HTTP status
code and the JSON body. -/
def handler (method : String) (urlParam : Option String)
    (outcome : Except String TBResponse) : Nat × TBResponse :=
  if method ≠ "GET" then
    (405, { status := "❌ Error: Method not allowed", extractedInfo := none, shortLink := none })
  else
    match urlParam with
    | none => (400, { status := "❌ Error: Missing URL parameter", extractedInfo := none, shortLink := none })
    | some u =>
      if u = "" then
        (400, { status := "❌ Error: Missing URL parameter", extractedInfo := none, shortLink := none })
      else
        match outcome with
        | Except.ok result =>
          (if strHasSub result.status "Success" then 200 else 400, result)
        | Except.error msg =>
          (500, { status := "❌ Error: " ++ (if msg = "" then "Internal server error" else msg),
                  extractedInfo := none, shortLink := none })

/-- A fixed assignment for the injected random draws, used by concrete
instances; the drawn values never influence control flow. -/
def noRand : RandomDraws :=
  { dlFid1 := 0, dlFid2 := 0, dlLogid := 0, dlR := 0, thFid1 := 0, thFid2 := 0, thLogid := 0 }

/-- The four thumbnail URLs written with a shared head `pre` and shared tail
`post`, differing only in the `size=c<W>_u<H>` parameter. -/
def fourEq (th : Thumbs) (pre post : String) : Prop :=
  th.t140x90 = pre ++ "&size=c140_u90" ++ post ∧
  th.t360x270 = pre ++ "&size=c360_u270" ++ post ∧
  th.t60x60 = pre ++ "&size=c60_u60" ++ post ∧
  th.t850x580 = pre ++ "&size=c850_u580" ++ post

theorem strData_append (a b : String) : (a ++ b).data = a.data ++ b.data := by
  cases a; cases b; rfl

theorem strAppend_assoc (a b c : String) : a ++ b ++ c = a ++ (b ++ c) := by
  cases a with
  | mk as =>
    cases b with
    | mk bs =>
      cases c with
      | mk cs => exact congrArg String.mk (List.append_assoc as bs cs)

theorem listLeads_refl (p : List Char) : listLeads p p = true := by
  induction p with
  | nil => rfl
  | cons c cs ih => simp [listLeads, ih]

theorem listLeads_append (p l r : List Char) (h : listLeads p l = true) :
    listLeads p (l ++ r) = true := by
  induction p generalizing l with
  | nil => rfl
  | cons a ps ih =>
    cases l with
    | nil => simp [listLeads] at h
    | cons c cs =>
      simp only [listLeads, Bool.and_eq_true, beq_iff_eq] at h
      simp only [List.cons_append, listLeads, Bool.and_eq_true, beq_iff_eq]
      exact ⟨h.1, ih cs h.2⟩

theorem listLeads_self_append (p r : List Char) : listLeads p (p ++ r) = true :=
  listLeads_append p p r (listLeads_refl p)

theorem listSub_nilPat (l : List Char) : listSub [] l = true := by
  cases l <;> simp [listSub, listLeads]

theorem listSub_appR (x a b : List Char) (h : listSub x b = true) :
    listSub x (a ++ b) = true := by
  induction a with
  | nil => simpa using h
  | cons c cs ih => simp [listSub, ih]

theorem listSub_self (x : List Char) : listSub x x = true := by
  cases x with
  | nil => rfl
  | cons c cs => simp [listSub, listLeads_refl (c :: cs)]

theorem listSub_suffix (a x : List Char) : listSub x (a ++ x) = true :=
  listSub_appR x a x (listSub_self x)

theorem listSub_appL (x a b : List Char) (h : listSub x a = true) :
    listSub x (a ++ b) = true := by
  induction a with
  | nil =>
    cases x with
    | nil => simpa using listSub_nilPat b
    | cons c cs => simp [listSub, listLeads] at h
  | cons c cs ih =>
    simp only [listSub, Bool.or_eq_true] at h
    rcases h with h | h
    · have h2 := listLeads_append x (c :: cs) b h
      simp only [List.cons_append] at h2
      simp [listSub, h2]
    · simp [listSub, ih h]

theorem hsub_selfR (a x : String) : strHasSub (a ++ x) x = true := by
  unfold strHasSub
  rw [strData_append]
  exact listSub_suffix a.data x.data

theorem hsub_appL {a x : String} (h : strHasSub a x = true) (b : String) :
    strHasSub (a ++ b) x = true := by
  unfold strHasSub at h ⊢
  rw [strData_append]
  exact listSub_appL _ _ _ h

theorem strLeads_concat (p t : String) : strLeads (p ++ t) p = true := by
  unfold strLeads
  rw [strData_append]
  exact listLeads_self_append p.data t.data

theorem strSplit (pre tail : String) {L s q : String} (hL : L = s ++ q) :
    pre ++ L ++ tail = (pre ++ s) ++ (q ++ tail) := by
  subst hL
  rw [← strAppend_assoc pre s q, strAppend_assoc (pre ++ s) q tail]

/-- Claim C8: the Short-Link Generator performs no network call and, for
every non-empty identifier, returns exactly
`https://1024terabox.com/s/<identifier>`, independent of the original URL. -/
theorem c8_short_link (url fileId : String) (h : fileId ≠ "") :
    generateShortLink url fileId = "https://1024terabox.com/s/" ++ fileId := rfl

/-- Witness for C8 at the identifier `1AbcDefGh` of the spec scenario. -/
theorem c8_witness :
    generateShortLink "https://terabox.com/s/1AbcDefGh" "1AbcDefGh" =
      "https://1024terabox.com/s/1AbcDefGh" :=
  (c8_short_link "https://terabox.com/s/1AbcDefGh" "1AbcDefGh" (by decide)).trans (by decide)

/-- Counterexample to claim C4: the source removes the FIRST occurrence of
`www.` anywhere in the host, not only a leading prefix.  The host
`terawww.box.com` contains none of the allow-listed substrings, so the
claim says the input is rejected, yet the implementation accepts it
(`terawww.box.com` minus its inner `www.` is `terabox.com`). -/
theorem c4_counterexample :
    normalizeTeraBoxUrl "https://terawww.box.com/x" = some "https://terawww.box.com/x" ∧
    normalizeTeraBoxUrlSpec "https://terawww.box.com/x" = none := by
  exact ⟨by decide, by decide⟩

/-- Claim C4 as amended: the normalizer fails exactly when the URL does not
parse or the host with the first occurrence of `www.` removed (anywhere,
not only a leading prefix) contains none of the allow-listed substrings;
every accepted input is returned unchanged. -/
theorem c4_amended (url : String) :
    ((∃ h, parseHostname url = some h ∧
        validDomains.any (fun d => strHasSub (removeFirst h "www.") d) = true) →
      normalizeTeraBoxUrl url = some url) ∧
    ((¬ ∃ h, parseHostname url = some h ∧
        validDomains.any (fun d => strHasSub (removeFirst h "www.") d) = true) →
      normalizeTeraBoxUrl url = none) := by
  constructor
  · rintro ⟨h, hp, hd⟩
    have hne : ¬ url = "" := by
      intro he
      rw [he] at hp
      rw [show parseHostname "" = none from rfl] at hp
      cases hp
    simp [normalizeTeraBoxUrl, hne, hp, hd]
  · intro hn
    by_cases he : url = ""
    · simp [normalizeTeraBoxUrl, he]
    · cases hp : parseHostname url with
      | none => simp [normalizeTeraBoxUrl, he, hp]
      | some h =>
        cases hd : validDomains.any (fun d => strHasSub (removeFirst h "www.") d) with
        | true => exact absurd ⟨h, hp, hd⟩ hn
        | false => simp [normalizeTeraBoxUrl, he, hp, hd]

/-- Witness for C4 applied at an accepted input with a leading `www.` host. -/
theorem c4_witness :
    normalizeTeraBoxUrl "https://www.terabox.com/s/abc" = some "https://www.terabox.com/s/abc" :=
  (c4_amended "https://www.terabox.com/s/abc").1 ⟨"www.terabox.com", rfl, by decide⟩

theorem scanTokenAfter_sub {pat : List Char} {p : Char → Bool} {cs : List Char} {t : String}
    (h : scanTokenAfter pat p cs = some t) : listSub pat cs = true := by
  induction cs with
  | nil => simp [scanTokenAfter] at h
  | cons c cs ih =>
    cases hl : listLeads pat (c :: cs) with
    | true => simp [listSub, hl]
    | false =>
      simp only [scanTokenAfter, hl] at h
      simp only [Bool.false_eq_true, if_false] at h
      simp [listSub, hl, ih h]

theorem urlShareToken_none {url : String} (h : strHasSub url "/s/" = false) :
    urlShareToken url = none := by
  cases hs : urlShareToken url with
  | none => rfl
  | some t =>
    have hsub := scanTokenAfter_sub hs
    unfold strHasSub at h
    rw [h] at hsub
    cases hsub

/-- Claim C6: the Identifier Extractor tries the `/s/<token>` URL segment,
then `"fs_id":<digits>`, then `"shareid":<digits>`, returns the first match
by this precedence, and fails exactly when none of the three patterns
match; in the spec scenario the URL match wins over the page-text match. -/
theorem c6_file_id_precedence (url page : String) :
    (extractFileId url page =
      match urlShareToken url with
      | some t => some t
      | none =>
        match pageFsId page with
        | some d => some d
        | none => pageShareId page) ∧
    (extractFileId url page = none ↔
      urlShareToken url = none ∧ pageFsId page = none ∧ pageShareId page = none) ∧
    extractFileId "https://terabox.com/s/ABC123" "x \"fs_id\":999 y" = some "ABC123" := by
  have hmain : extractFileId url page =
      match urlShareToken url with
      | some t => some t
      | none =>
        match pageFsId page with
        | some d => some d
        | none => pageShareId page := by
    cases hg : strHasSub url "/s/" with
    | true => simp [extractFileId, hg]
    | false => simp [extractFileId, hg, urlShareToken_none hg]
  refine ⟨hmain, ?_, by decide⟩
  rw [hmain]
  cases urlShareToken url <;> cases pageFsId page <;> cases pageShareId page <;> simp

theorem formatSize_eq (b i : Nat) (hb : ¬ b = 0) (hlog : Nat.log 1024 b = i) :
    formatSize b = renderHundredths (fixed2 b (1024 ^ i)) ++ " " ++ sizesList.getD i "undefined" := by
  simp [formatSize, hb, hlog]

/-- Counterexample to claim C2: the source does not clamp the unit index –
`sizes[5]` is the JavaScript value `undefined` – so at 1024^5 bytes the
rendered unit is the string `undefined`, not `TB`. -/
theorem c2_counterexample :
    formatSize (1024 ^ 5) = "1 undefined" ∧ formatSize (1024 ^ 5) ≠ "1 TB" := by
  have hlog : Nat.log 1024 (1024 ^ 5) = 5 := Nat.log_pow (by norm_num) 5
  have h1 : formatSize (1024 ^ 5) = "1 undefined" := by
    rw [formatSize_eq (1024 ^ 5) 5 (by norm_num) hlog]
    decide
  exact ⟨h1, by rw [h1]; decide⟩

/-- Claim C2 as amended: `formatSize 0 = "0 Bytes"`, `formatSize 1024 = "1 KB"`,
`formatSize 1536 = "1.5 KB"`; the unit index is NOT clamped, so for every
byte count of 1024^5 or more the rendered unit is the string `undefined`. -/
theorem c2_amended :
    formatSize 0 = "0 Bytes" ∧ formatSize 1024 = "1 KB" ∧ formatSize 1536 = "1.5 KB" ∧
    ∀ b : Nat, 1024 ^ 5 ≤ b → ∃ p, formatSize b = p ++ " undefined" := by
  refine ⟨rfl, ?_, ?_, ?_⟩
  · have hlog : Nat.log 1024 1024 = 1 := by
      have h := Nat.log_pow (b := 1024) (by norm_num) 1
      simpa using h
    rw [formatSize_eq 1024 1 (by norm_num) hlog]
    decide
  · rw [formatSize_eq 1536 1 (by norm_num)
      (Nat.log_eq_of_pow_le_of_lt_pow (by norm_num) (by norm_num))]
    decide
  · intro b hb
    have hb0 : b ≠ 0 := (Nat.lt_of_lt_of_le (by positivity) hb).ne'
    have hlog5 : 5 ≤ Nat.log 1024 b := (Nat.pow_le_iff_le_log (by norm_num) hb0).mp hb
    have hgd : sizesList.getD (Nat.log 1024 b) "undefined" = "undefined" :=
      List.getD_eq_default _ _ (by simpa [sizesList] using hlog5)
    refine ⟨renderHundredths (fixed2 b (1024 ^ Nat.log 1024 b)), ?_⟩
    rw [formatSize_eq b (Nat.log 1024 b) hb0 rfl, hgd, strAppend_assoc]
    rw [show (" " ++ "undefined" : String) = " undefined" from by decide]

/-- Witness for C2 applied at the boundary byte count 1024^5. -/
theorem c2_witness : ∃ p, formatSize (1024 ^ 5) = p ++ " undefined" :=
  c2_amended.2.2.2 (1024 ^ 5) (le_refl _)

theorem catEq_three_not_one {fi : Json} (h3 : catEq fi 3 = true) : catEq fi 1 = false := by
  unfold catEq at h3 ⊢
  cases hj : jsGetOpt fi "category" with
  | none => rw [hj] at h3
  | some v =>
    rw [hj] at h3
    cases v with
    | num m =>
      have hm : m = 3 := beq_iff_eq.mp (show (m == 3) = true from h3)
      subst hm
      show ((3 : Int) == 1) = false
      decide
    | null => exact absurd (show (false : Bool) = true from h3) (by decide)
    | bool b => exact absurd (show (false : Bool) = true from h3) (by decide)
    | str s => exact absurd (show (false : Bool) = true from h3) (by decide)
    | arr xs => exact absurd (show (false : Bool) = true from h3) (by decide)
    | obj fs => exact absurd (show (false : Bool) = true from h3) (by decide)

/-- Claim C5: thumbnails are produced exactly for category 1 (video) or 3
(image); the map has the four size presets as keys, the four URLs share head
and tail and differ only in the `size=c<W>_u<H>` parameter, and the shared
tail carries `ft=video` for category 1 and `ft=image` for category 3; any
other category yields `none` rather than an error. -/
theorem c5_thumbnails (fi server sign ts : Json) (ta tb tc : Nat) :
    (generateThumbnailUrls fi server sign ts ta tb tc = none ↔
      catEq fi 1 = false ∧ catEq fi 3 = false) ∧
    (catEq fi 1 = true →
      ∃ th pre, generateThumbnailUrls fi server sign ts ta tb tc = some th ∧
        th.entries.map Prod.fst = ["140x90", "360x270", "60x60", "850x580"] ∧
        fourEq th pre "&quality=100&vuk=-&ft=video") ∧
    (catEq fi 3 = true →
      ∃ th pre, generateThumbnailUrls fi server sign ts ta tb tc = some th ∧
        th.entries.map Prod.fst = ["140x90", "360x270", "60x60", "850x580"] ∧
        fourEq th pre "&quality=100&vuk=-&ft=image") := by
  have hsp140 : ("&size=c140_u90&quality=100&vuk=-&ft=" : String) =
      "&size=c140_u90" ++ "&quality=100&vuk=-&ft=" := by decide
  have hsp360 : ("&size=c360_u270&quality=100&vuk=-&ft=" : String) =
      "&size=c360_u270" ++ "&quality=100&vuk=-&ft=" := by decide
  have hsp60 : ("&size=c60_u60&quality=100&vuk=-&ft=" : String) =
      "&size=c60_u60" ++ "&quality=100&vuk=-&ft=" := by decide
  have hsp850 : ("&size=c850_u580&quality=100&vuk=-&ft=" : String) =
      "&size=c850_u580" ++ "&quality=100&vuk=-&ft=" := by decide
  have hvid : ("&quality=100&vuk=-&ft=" : String) ++ "video" = "&quality=100&vuk=-&ft=video" := by
    decide
  have himg : ("&quality=100&vuk=-&ft=" : String) ++ "image" = "&quality=100&vuk=-&ft=image" := by
    decide
  refine ⟨?_, ?_, ?_⟩
  · cases h1 : catEq fi 1 <;> cases h3 : catEq fi 3 <;>
      simp [generateThumbnailUrls, h1, h3]
  · intro h1
    simp only [generateThumbnailUrls, h1, Bool.not_true, Bool.false_and, Bool.and_eq_true,
      if_false, Bool.false_eq_true, if_true]
    refine ⟨_, "https://data.1024tera.com/thumbnail/" ++ jsFieldStr fi "fs_id" ++
      ("?fid=" ++ jsFieldStr fi "fs_id" ++ "-" ++ toString ta ++ "-" ++ toString tb ++
        "&time=" ++ jsToString ts ++ "&rt=sh&sign=" ++ jsToString sign ++
        "&expires=8h&chkv=0&chkbd=0&chkpc=&dp-logid=" ++ toString tc ++ "&dp-callid=0"),
      rfl, rfl, ?_, ?_, ?_, ?_⟩
    · rw [strSplit _ "video" hsp140, hvid]
    · rw [strSplit _ "video" hsp360, hvid]
    · rw [strSplit _ "video" hsp60, hvid]
    · rw [strSplit _ "video" hsp850, hvid]
  · intro h3
    have h1 := catEq_three_not_one h3
    simp only [generateThumbnailUrls, h1, h3, Bool.not_true, Bool.not_false, Bool.true_and,
      Bool.false_eq_true, if_false]
    refine ⟨_, "https://data.1024tera.com/thumbnail/" ++ jsFieldStr fi "fs_id" ++
      ("?fid=" ++ jsFieldStr fi "fs_id" ++ "-" ++ toString ta ++ "-" ++ toString tb ++
        "&time=" ++ jsToString ts ++ "&rt=sh&sign=" ++ jsToString sign ++
        "&expires=8h&chkv=0&chkbd=0&chkpc=&dp-logid=" ++ toString tc ++ "&dp-callid=0"),
      rfl, rfl, ?_, ?_, ?_, ?_⟩
    · rw [strSplit _ "image" hsp140, himg]
    · rw [strSplit _ "image" hsp360, himg]
    · rw [strSplit _ "image" hsp60, himg]
    · rw [strSplit _ "image" hsp850, himg]

/-- Witness for C5: a category-1 record yields the video thumbnail map, a
category-2 record yields `none`. -/
theorem c5_witness :
    (∃ th pre, generateThumbnailUrls (Json.obj [("fs_id", Json.num 777), ("category", Json.num 1)])
        (Json.str "") (Json.str "sg") (Json.str "11") 1 2 3 = some th ∧
      th.entries.map Prod.fst = ["140x90", "360x270", "60x60", "850x580"] ∧
      fourEq th pre "&quality=100&vuk=-&ft=video") ∧
    generateThumbnailUrls (Json.obj [("fs_id", Json.num 777), ("category", Json.num 2)])
      (Json.str "") (Json.str "sg") (Json.str "11") 1 2 3 = none := by
  constructor
  · exact (c5_thumbnails (Json.obj [("fs_id", Json.num 777), ("category", Json.num 1)])
      (Json.str "") (Json.str "sg") (Json.str "11") 1 2 3).2.1 rfl
  · exact (c5_thumbnails (Json.obj [("fs_id", Json.num 777), ("category", Json.num 2)])
      (Json.str "") (Json.str "sg") (Json.str "11") 1 2 3).1.mpr ⟨rfl, rfl⟩

theorem jsFieldStr_eq {fi : Json} {k : String} {v : Json} (h : jsGetOpt fi k = some v) :
    jsFieldStr fi k = jsToString v := by
  simp [jsFieldStr, h]

/-- Claim C7: for every file record with an `fs_id` field and every
server/sign/timestamp context, the Link Synthesizer emits the fixed
template on the download host, interpolating the `fs_id`, the composite
`fid` built from the `fs_id` and the two bounded random draws, the
timestamp as `dstime`, the sign value, and the randomized `dp-logid` and
`r` identifiers; the link therefore contains the `fs_id` and the sign as
substrings. -/
theorem c7_direct_link (fi server sign ts v : Json) (ra rb rc rd : Nat)
    (hfs : jsGetOpt fi "fs_id" = some v) (hra : ra ≤ 9999) (hrb : rb ≤ 9999999999) :
    createDirectLink fi server sign ts ra rb rc rd =
      "https://d.1024tera.com/file/" ++ jsToString v ++ "?fid=" ++ jsToString v ++ "-" ++
        toString ra ++ "-" ++ toString rb ++ "&dstime=" ++ jsToString ts ++ "&rt=sh&sign=" ++
        jsToString sign ++ "&expires=8h&chkv=0&chkbd=0&chkpc=&dp-logid=" ++ toString rc ++
        "&dp-callid=0&r=" ++ toString rd ++ "&sh=1&region=jp" ∧
    strHasSub (createDirectLink fi server sign ts ra rb rc rd) (jsToString v) = true ∧
    strHasSub (createDirectLink fi server sign ts ra rb rc rd) (jsToString sign) = true := by
  have heq : createDirectLink fi server sign ts ra rb rc rd =
      "https://d.1024tera.com/file/" ++ jsToString v ++ "?fid=" ++ jsToString v ++ "-" ++
        toString ra ++ "-" ++ toString rb ++ "&dstime=" ++ jsToString ts ++ "&rt=sh&sign=" ++
        jsToString sign ++ "&expires=8h&chkv=0&chkbd=0&chkpc=&dp-logid=" ++ toString rc ++
        "&dp-callid=0&r=" ++ toString rd ++ "&sh=1&region=jp" := by
    unfold createDirectLink
    rw [jsFieldStr_eq hfs]
  refine ⟨heq, ?_, ?_⟩
  · rw [heq]
    exact hsub_appL (hsub_appL (hsub_appL (hsub_appL (hsub_appL (hsub_appL (hsub_appL
      (hsub_appL (hsub_appL (hsub_appL (hsub_appL (hsub_appL (hsub_appL (hsub_appL
        (hsub_appL (hsub_selfR "https://d.1024tera.com/file/" (jsToString v)) _) _) _)
          _) _) _) _) _) _) _) _) _) _) _) _
  · rw [heq]
    exact hsub_appL (hsub_appL (hsub_appL (hsub_appL (hsub_appL
      (hsub_selfR ("https://d.1024tera.com/file/" ++ jsToString v ++ "?fid=" ++ jsToString v ++
        "-" ++ toString ra ++ "-" ++ toString rb ++ "&dstime=" ++ jsToString ts ++ "&rt=sh&sign=")
        (jsToString sign)) _) _) _) _) _

/-- Witness for C7: for `fs_id` 12345 and sign `xyz` the synthesized link
is the concrete template instance and contains `12345` and `xyz`. -/
theorem c7_witness :
    createDirectLink (Json.obj [("fs_id", Json.num 12345)]) (Json.str "s1") (Json.str "xyz")
        (Json.str "111") 7 42 9 13 =
      "https://d.1024tera.com/file/12345?fid=12345-7-42&dstime=111&rt=sh&sign=xyz&expires=8h&chkv=0&chkbd=0&chkpc=&dp-logid=9&dp-callid=0&r=13&sh=1&region=jp" ∧
    strHasSub (createDirectLink (Json.obj [("fs_id", Json.num 12345)]) (Json.str "s1")
      (Json.str "xyz") (Json.str "111") 7 42 9 13) "12345" = true ∧
    strHasSub (createDirectLink (Json.obj [("fs_id", Json.num 12345)]) (Json.str "s1")
      (Json.str "xyz") (Json.str "111") 7 42 9 13) "xyz" = true := by
  have h := c7_direct_link (Json.obj [("fs_id", Json.num 12345)]) (Json.str "s1")
    (Json.str "xyz") (Json.str "111") (Json.num 12345) 7 42 9 13 rfl (by norm_num) (by norm_num)
  have hlit : createDirectLink (Json.obj [("fs_id", Json.num 12345)]) (Json.str "s1")
      (Json.str "xyz") (Json.str "111") 7 42 9 13 =
      "https://d.1024tera.com/file/12345?fid=12345-7-42&dstime=111&rt=sh&sign=xyz&expires=8h&chkv=0&chkbd=0&chkpc=&dp-logid=9&dp-callid=0&r=13&sh=1&region=jp" := by
    rw [h.1]
    simp only [jsToString]
    decide
  refine ⟨hlit, ?_, ?_⟩ <;> rw [hlit] <;> decide

theorem extract_shape (url : String) (fetched : Except String String) (rs : RandomDraws) :
    (∃ m, extractTeraBoxInfo url fetched rs =
      { status := "❌ Error: " ++ m, extractedInfo := none, shortLink := none }) ∨
    (∃ fi sl, extractTeraBoxInfo url fetched rs = formatResponse fi sl) := by
  unfold extractTeraBoxInfo
  split
  · left
    exact ⟨"Invalid TeraBox URL", by decide⟩
  · split
    · left
      exact ⟨_, rfl⟩
    · split
      · left
        exact ⟨"Could not extract file ID", by decide⟩
      · split
        · left
          exact ⟨"Could not extract file info", by decide⟩
        · right
          exact ⟨_, _, rfl⟩

/-- Claim C9: for every input URL and every fetch outcome (page text or a
thrown error), the extraction settles to a response value with a status
string, and every failure response carries only the status – both payload
fields are absent – while success responses carry both. -/
theorem c9_result_shape (url : String) (fetched : Except String String) (rs : RandomDraws) :
    ((extractTeraBoxInfo url fetched rs).status = "✅ Success" ∧
      (extractTeraBoxInfo url fetched rs).extractedInfo.isSome = true ∧
      (extractTeraBoxInfo url fetched rs).shortLink.isSome = true) ∨
    ((extractTeraBoxInfo url fetched rs).extractedInfo = none ∧
      (extractTeraBoxInfo url fetched rs).shortLink = none) := by
  rcases extract_shape url fetched rs with ⟨m, hm⟩ | ⟨fi, sl, hs⟩
  · right
    rw [hm]
    exact ⟨rfl, rfl⟩
  · left
    rw [hs]
    exact ⟨rfl, rfl, rfl⟩

/-- Claim C10: every status produced by the extraction is either exactly the
success marker `✅ Success` or begins with the failure marker `❌ Error:`. -/
theorem c10_status_shape (url : String) (fetched : Except String String) (rs : RandomDraws) :
    (extractTeraBoxInfo url fetched rs).status = "✅ Success" ∨
    strLeads (extractTeraBoxInfo url fetched rs).status "❌ Error:" = true := by
  rcases extract_shape url fetched rs with ⟨m, hm⟩ | ⟨fi, sl, hs⟩
  · right
    rw [hm]
    show strLeads ("❌ Error: " ++ m) "❌ Error:" = true
    rw [show ("❌ Error: " : String) = "❌ Error:" ++ " " from by decide, strAppend_assoc]
    exact strLeads_concat _ _
  · left
    rw [hs]
    rfl

/-- Counterexample to claim C1: the three parser failure kinds are not
distinguishable.  A page with no `window.yunData` assignment, a page whose
captured JSON does not decode, and a page whose decoded data has an empty
`file_list` all surface to the caller as the same single response; the
trailing conjuncts certify that the three pages really exercise the three
different kinds. -/
theorem c1_counterexample :
    extractTeraBoxInfo "https://terabox.com/s/abc" (Except.ok "no page data here") noRand =
      extractTeraBoxInfo "https://terabox.com/s/abc" (Except.ok "window.yunData = notjson;") noRand ∧
    extractTeraBoxInfo "https://terabox.com/s/abc" (Except.ok "window.yunData = notjson;") noRand =
      extractTeraBoxInfo "https://terabox.com/s/abc"
        (Except.ok "window.yunData = \x7b\"file_list\":[]\x7d;") noRand ∧
    extractTeraBoxInfo "https://terabox.com/s/abc" (Except.ok "no page data here") noRand =
      { status := "❌ Error: Could not extract file info", extractedInfo := none, shortLink := none } ∧
    yunDataCapture "no page data here" = none ∧
    yunDataCapture "window.yunData = notjson;" = some "notjson" ∧
    (jsonParse "notjson").isNone = true ∧
    yunDataCapture "window.yunData = \x7b\"file_list\":[]\x7d;" = some "\x7b\"file_list\":[]\x7d" ∧
    (jsonParse "\x7b\"file_list\":[]\x7d").isSome = true := by
  exact ⟨by decide, by decide, by decide, by decide, by decide, by decide, by decide, by decide⟩

/-- Claim C1 as amended: the Page Data Parser returns the same absent result
(`null`) for all three failure kinds – missing assignment, undecodable JSON,
empty file list – and every such failure surfaces to the caller as the one
status `❌ Error: Could not extract file info`; the kinds are not
distinguishable in the failure result. -/
theorem c1_amended :
    extractFileInfoFromPage "no page data here" noRand = none ∧
    extractFileInfoFromPage "window.yunData = notjson;" noRand = none ∧
    extractFileInfoFromPage "window.yunData = \x7b\"file_list\":[]\x7d;" noRand = none ∧
    ∀ url page rs, normalizeTeraBoxUrl url = some url →
      (extractFileId url page).isSome = true →
      extractFileInfoFromPage page rs = none →
      extractTeraBoxInfo url (Except.ok page) rs =
        { status := "❌ Error: Could not extract file info",
          extractedInfo := none, shortLink := none } := by
  refine ⟨by decide, by decide, by decide, ?_⟩
  intro url page rs hnorm hid hparse
  rcases Option.isSome_iff_exists.mp hid with ⟨fid, hfid⟩
  simp [extractTeraBoxInfo, hnorm, hfid, hparse]

/-- Witness for C1 applied at the undecodable-JSON page. -/
theorem c1_witness :
    extractTeraBoxInfo "https://terabox.com/s/abc" (Except.ok "window.yunData = notjson;") noRand =
      { status := "❌ Error: Could not extract file info",
        extractedInfo := none, shortLink := none } :=
  c1_amended.2.2.2 "https://terabox.com/s/abc" "window.yunData = notjson;" noRand
    (by decide) (by decide) (by decide)

/-- Counterexample to claim C3: the handler decides with a substring match
for `Success`, so a recognized extraction failure – here a fetch failure
whose transport error message is `Success` – is answered with 200, not 400. -/
theorem c3_counterexample :
    extractTeraBoxInfo "https://www.terabox.com/s/abc" (Except.error "Success") noRand =
      { status := "❌ Error: Success", extractedInfo := none, shortLink := none } ∧
    handler "GET" (some "https://www.terabox.com/s/abc")
        (Except.ok { status := "❌ Error: Success", extractedInfo := none, shortLink := none }) =
      (200, { status := "❌ Error: Success", extractedInfo := none, shortLink := none }) := by
  exact ⟨by decide, by decide⟩

/-- Claim C3 as amended: for a GET request with a nonempty `url` parameter,
the handler answers 200 exactly when the resolved extraction result has a
status containing the substring `Success` (so a failure whose message
contains `Success` is also answered 200), 400 for every other resolved
result, and 500 when the extraction promise rejects. -/
theorem c3_amended (u : String) (outcome : Except String TBResponse) (hu : u ≠ "") :
    (∀ r, outcome = Except.ok r →
      (handler "GET" (some u) outcome).1 =
        (if strHasSub r.status "Success" then 200 else 400)) ∧
    (∀ msg, outcome = Except.error msg → (handler "GET" (some u) outcome).1 = 500) := by
  constructor
  · rintro r rfl
    simp [handler, hu]
  · rintro msg rfl
    simp [handler, hu]

/-- Witness for C3: a resolved success response is answered with 200. -/
theorem c3_witness :
    (handler "GET" (some "https://terabox.com/s/a")
      (Except.ok { status := "✅ Success", extractedInfo := some [], shortLink := some "x" })).1 =
      200 := by
  have h := (c3_amended "https://terabox.com/s/a"
    (Except.ok { status := "✅ Success", extractedInfo := some [], shortLink := some "x" })
    (by decide)).1
    { status := "✅ Success", extractedInfo := some [], shortLink := some "x" } rfl
  rw [h]
  decide
